import Mathlib

/-!
Verification of the voxa-frontend transcript rendering/export pipeline.

The TypeScript source (src/src/app/transcripts/page.tsx and the three
API proxy routes under src/unnamed) is shallowly embedded below.
JavaScript numbers are modelled as rationals (ℚ): every concrete value
the claims mention is a decimal fraction handled exactly by the
arithmetic in question, and the spec's derivations are stated over real
arithmetic.  JavaScript `%` on numbers is the truncated-division
remainder (sign of the dividend), embedded as `jsMod`; `Math.floor` is
`Int.floor`; `Number.prototype.toString` on integer-valued numbers is
`toString` on ℤ; `String.prototype.padStart` and
`Array.prototype.join` are embedded directly.  Floating-point NaN and
rounding noise are outside this embedding and are noted where a claim
touches them.
-/

namespace Voxa

/-- JavaScript truncation toward zero of a rational number (the implicit
integer division underlying the `%` operator on numbers); for negative
`q` truncation toward zero equals `-⌊-q⌋`. -/
def ratTrunc (q : ℚ) : ℤ := if 0 ≤ q then ⌊q⌋ else -⌊-q⌋

/-- JavaScript `%` on finite numbers: the remainder of truncated
division, carrying the sign of the dividend. -/
def jsMod (a b : ℚ) : ℚ := a - b * ratTrunc (a / b)

/-- JavaScript `String.prototype.padStart(n, c)` with a one-character
pad string: left-pad with `c` up to length `n`; longer strings are
returned unchanged. -/
def padStart (s : String) (n : Nat) (c : Char) : String :=
  if n ≤ s.length then s else String.mk (List.replicate (n - s.length) c) ++ s

/-- JavaScript `Array.prototype.join(sep)` on an array of strings. -/
def jsJoin (sep : String) : List String → String
  | [] => ""
  | [x] => x
  | x :: y :: xs => x ++ sep ++ jsJoin sep (y :: xs)

/-- `TranscriptEntry` from src/src/app/transcripts/page.tsx (lines
21–25). -/
structure TranscriptEntry where
  text : String
  start : ℚ
  duration : ℚ
deriving DecidableEq

/-- `formatTime` from src/src/app/transcripts/page.tsx (lines 148–159):
renders a seconds offset as `HH:MM:SS,mmm` using `Math.floor`,
JavaScript `%`, `toString` and `padStart`. -/
def formatTime (seconds : ℚ) : String :=
  let hours : ℤ := ⌊seconds / 3600⌋
  let minutes : ℤ := ⌊jsMod seconds 3600 / 60⌋
  let secs : ℤ := ⌊jsMod seconds 60⌋
  let ms : ℤ := ⌊jsMod seconds 1 * 1000⌋
  padStart (toString hours) 2 '0' ++ ":" ++ padStart (toString minutes) 2 '0' ++
    ":" ++ padStart (toString secs) 2 '0' ++ "," ++ padStart (toString ms) 3 '0'

/-- `copyToClipboard` from src/src/app/transcripts/page.tsx (lines
102–106), restricted to the text it writes to the clipboard:
`transcript.map((entry) => entry.text).join(" ")`. -/
def copyToClipboard (entries : List TranscriptEntry) : String :=
  jsJoin " " (entries.map fun e => e.text)

/-- The `format === "txt"` branch of `downloadAsFile` from
src/src/app/transcripts/page.tsx (lines 114–126): the `content` string
built for the `.txt` download, for either value of the
`includeTimestamps` toggle. -/
def txtContent (includeTimestamps : Bool) (entries : List TranscriptEntry) : String :=
  if includeTimestamps then
    jsJoin "\n" (entries.map fun e => "[" ++ formatTime e.start ++ "] " ++ e.text)
  else
    jsJoin "\n" (entries.map fun e => e.text)

/-- One mapped element of the `format === "srt"` branch of
`downloadAsFile` (lines 128–134): the template string
`index+1 \n start --> end \n text \n`. -/
def srtBlock (e : TranscriptEntry) (index : Nat) : String :=
  toString (index + 1) ++ "\n" ++ formatTime e.start ++ " --> " ++
    formatTime (e.start + e.duration) ++ "\n" ++ e.text ++ "\n"

/-- The `format === "srt"` branch of `downloadAsFile` (lines 127–135):
the `content` string built for the `.srt` download,
`transcript.map((entry, index) => block).join("\n")`. -/
def srtContent (entries : List TranscriptEntry) : String :=
  jsJoin "\n" (entries.enum.map fun p => srtBlock p.2 p.1)

/-- The suggested download filename from `downloadAsFile` (line 112):
`transcript_<videoId>.<format>`. -/
def downloadFilename (videoId fmt : String) : String :=
  "transcript_" ++ videoId ++ "." ++ fmt

/-- JavaScript `Number.prototype.toFixed(0)`: the integer closest to the
argument, ties resolved to the larger integer (ECMA-262 `toFixed` picks
the larger candidate), i.e. `⌊q + 1/2⌋`. -/
def toFixed0 (q : ℚ) : ℤ := ⌊q + 1 / 2⌋

/-- The on-screen timestamp label of one transcript entry from
src/src/app/transcripts/page.tsx (lines 423–424):
`Math.floor(entry.start / 60)` + ":" +
`(entry.start % 60).toFixed(0).padStart(2, "0")`. -/
def displayLabel (start : ℚ) : String :=
  toString (⌊start / 60⌋ : ℤ) ++ ":" ++
    padStart (toString (toFixed0 (jsMod start 60))) 2 '0'

/-- `seekToTime` from src/src/app/transcripts/page.tsx (lines 161–174),
restricted to its state update `setActiveTimestamp(seconds)`; the
fire-and-forget `postMessage` seek command to the iframe has no effect
on page state and is not modelled. -/
def seekToTime (seconds : ℚ) (_activeTimestamp : Option ℚ) : Option ℚ :=
  some seconds

/-- The active-entry render condition from src/src/app/transcripts/
page.tsx (lines 407–411 and 416–421): `activeTimestamp === entry.start`
(strict equality against a `number | null` state, `null` initial state
matching no entry). -/
def isActive (e : TranscriptEntry) (activeTimestamp : Option ℚ) : Bool :=
  decide (activeTimestamp = some e.start)

/-- The settled outcome of one `fetch(...)` followed by
`response.json()`: either both succeeded, producing a parsed JSON value
(kept opaque as a string), or the promise chain rejected with an error
message. -/
inductive FetchOutcome where
  | resolved (json : String)
  | rejected (msg : String)
deriving DecidableEq

/-- The page state written by `fetchData` (transcriptData, summaryData,
error). -/
structure PageFetchState where
  transcriptData : Option String
  summaryData : Option String
  error : Option String
deriving DecidableEq

/-- `fetchData` from src/src/app/transcripts/page.tsx (lines 60–79):
`Promise.all` over the transcript and summary fetches inside a single
`try/catch`.  If both branches resolve, both results are stored; if
either rejects, `Promise.all` rejects, the `catch` stores only the
error message, and neither result is stored.  (When both reject,
`Promise.all` settles with the temporally first rejection; that order
is not observable here, so the transcript branch — first in the array —
is taken.) -/
def fetchData (t s : FetchOutcome) : PageFetchState :=
  match t, s with
  | .resolved tj, .resolved sj => ⟨some tj, some sj, none⟩
  | .rejected m, _ => ⟨none, none, some m⟩
  | .resolved _, .rejected m => ⟨none, none, some m⟩

/-- A backend HTTP response as seen by a proxy route: `ok` and `status`
from the fetch `Response`, and the parsed JSON body — `none` when the
body is not valid JSON (so `response.json()` throws), otherwise its
optional string `detail` field plus an opaque remainder. -/
structure BackendResponse where
  ok : Bool
  status : Nat
  body : Option (Option String × String)
deriving DecidableEq

/-- A NextResponse produced by a proxy route: HTTP status, the `error`
field of the JSON body when the route built an error object, and the
forwarded backend payload on the success path. -/
structure RouteResponse where
  status : Nat
  error : Option String
  data : Option String
deriving DecidableEq

/-- JavaScript `a || b` on `errorData.detail || "fallback"`: the detail
string when present and truthy (non-empty), else the fallback. -/
def jsOrElse (s : Option String) (fallback : String) : String :=
  match s with
  | some v => if v = "" then fallback else v
  | none => fallback

/-- Shared shape of the three proxy route handlers: parameter check
(JavaScript `!param` rejects both a missing and an empty parameter),
then the fetch to the backend — `none` models a rejected fetch, caught
by the route's `catch` — then the `response.ok` branch.  On `!ok` the
route re-reads the body as JSON and answers
`{ error: detail || fallback }` with the backend's status; a body that
fails to parse throws into the `catch`. -/
def proxyRoute (missingMsg fallbackMsg catchMsg : String)
    (param : Option String) (backend : Option BackendResponse) : RouteResponse :=
  match param with
  | none => ⟨400, some missingMsg, none⟩
  | some p =>
    if p = "" then ⟨400, some missingMsg, none⟩
    else
      match backend with
      | none => ⟨500, some catchMsg, none⟩
      | some r =>
        match r.body with
        | none => ⟨500, some catchMsg, none⟩
        | some b =>
          if r.ok then ⟨200, none, some b.2⟩
          else ⟨r.status, some (jsOrElse b.1 fallbackMsg), none⟩

/-- The transcript proxy route `GET` from src/unnamed/part_003 (lines
1–45): parameter `url`, non-ok fallback "Failed to fetch transcript",
catch branch "Internal server error". -/
def transcriptRoute (url : Option String) (backend : Option BackendResponse) :
    RouteResponse :=
  proxyRoute "URL parameter is required" "Failed to fetch transcript"
    "Internal server error" url backend

/-- The summary proxy route `GET` from src/unnamed/part_002: parameter
`url`, non-ok fallback "Failed to fetch summary", catch branch
"Internal server error". -/
def summaryRoute (url : Option String) (backend : Option BackendResponse) :
    RouteResponse :=
  proxyRoute "URL parameter is required" "Failed to fetch summary"
    "Internal server error" url backend

/-- The quiz proxy route `GET` from src/unnamed/part_001: parameter
`videoId`, non-ok fallback "Failed to fetch quiz", catch branch
"Failed to generate quiz". -/
def quizRoute (videoId : Option String) (backend : Option BackendResponse) :
    RouteResponse :=
  proxyRoute "Video ID is required" "Failed to fetch quiz"
    "Failed to generate quiz" videoId backend

/-- The mathematical (floor-division) `mod` used by the spec's §4.1
derivation of the timestamp styles. -/
def specMod (a b : ℚ) : ℚ := a - b * ⌊a / b⌋

/-- Spec-side definition (§4.1 Subtitle style, stated from the spec's
words for comparison with `formatTime`): `HH:MM:SS,mmm` with
`hours = floor(s/3600)`, `minutes = floor((s mod 3600)/60)`,
`seconds = floor(s mod 60)`, `millis = floor((s mod 1) * 1000)`,
hours/minutes/seconds zero-padded to 2 digits and millis to 3. -/
def specSubtitleStyle (s : ℚ) : String :=
  padStart (toString (⌊s / 3600⌋ : ℤ)) 2 '0' ++ ":" ++
    padStart (toString (⌊specMod s 3600 / 60⌋ : ℤ)) 2 '0' ++ ":" ++
    padStart (toString (⌊specMod s 60⌋ : ℤ)) 2 '0' ++ "," ++
    padStart (toString (⌊specMod s 1 * 1000⌋ : ℤ)) 3 '0'

/-- Spec-side definition (§4.1 Display style, stated from the spec's
words for comparison with the code's timestamped TXT lines and
on-screen labels): `M:SS`, minutes unpadded, seconds floored and
zero-padded to 2 digits. -/
def specDisplayStyle (s : ℚ) : String :=
  toString (⌊s / 60⌋ : ℤ) ++ ":" ++ padStart (toString (⌊specMod s 60⌋ : ℤ)) 2 '0'

theorem jsMod_eq_specMod (a b : ℚ) (ha : 0 ≤ a) (hb : 0 < b) :
    jsMod a b = specMod a b := by
  unfold jsMod specMod ratTrunc
  rw [if_pos (div_nonneg ha hb.le)]

theorem jsJoin_blocks (l : List String) (h : l ≠ []) :
    jsJoin "\n" (l.map fun s => s ++ "\n") = jsJoin "\n\n" l ++ "\n" := by
  induction l with
  | nil => exact absurd rfl h
  | cons x xs ih =>
    cases xs with
    | nil => rfl
    | cons y t =>
      have hnl : ("\n" : String) ++ "\n" = "\n\n" := by decide
      have ih2 := ih (by simp)
      simp only [List.map] at ih2
      simp only [List.map, jsJoin]
      rw [ih2, ← hnl]
      simp [String.append_assoc]

theorem formatTime_eq_specSubtitleStyle (s : ℚ) (hs : 0 ≤ s) :
    formatTime s = specSubtitleStyle s := by
  simp only [formatTime, specSubtitleStyle]
  rw [jsMod_eq_specMod s 3600 hs (by norm_num),
    jsMod_eq_specMod s 60 hs (by norm_num),
    jsMod_eq_specMod s 1 hs (by norm_num)]

/-- Claim C2: for every non-negative seconds value, `formatTime`
produces the spec's Subtitle style `HH:MM:SS,mmm` — hours, minutes and
seconds floor-derived and zero-padded to 2 digits, millis floor-derived
and zero-padded to 3 digits; in particular
`formatTime 3661.5 = "01:01:01,500"`. -/
theorem formatTime_matches_subtitle_spec :
    (∀ s : ℚ, 0 ≤ s → formatTime s = specSubtitleStyle s) ∧
      formatTime (3661.5 : ℚ) = "01:01:01,500" := by
  refine ⟨formatTime_eq_specSubtitleStyle, ?_⟩
  norm_num [formatTime, jsMod, ratTrunc]
  decide

/-- Witness for C2 at `s = 5`. -/
theorem formatTime_matches_subtitle_spec_witness :
    (0 : ℚ) ≤ 5 ∧ formatTime 5 = specSubtitleStyle 5 :=
  ⟨by norm_num, formatTime_matches_subtitle_spec.1 5 (by norm_num)⟩

/-- Claim C1: for every non-empty entry sequence, the SRT export is one
block per entry in document order — the 1-based position as index line,
then `<start> --> <end>` with subtitle-encoded `start` and
`start + duration`, then the entry's text — consecutive blocks
separated by a blank line (and a trailing newline closing the final
block). -/
theorem srt_export_block_structure (entries : List TranscriptEntry)
    (h : entries ≠ []) :
    srtContent entries =
      jsJoin "\n\n" (entries.enum.map fun p =>
        toString (p.1 + 1) ++ "\n" ++ formatTime p.2.start ++ " --> " ++
          formatTime (p.2.start + p.2.duration) ++ "\n" ++ p.2.text) ++ "\n" := by
  have hmap : entries.enum.map (fun p => srtBlock p.2 p.1) =
      (entries.enum.map fun p =>
        toString (p.1 + 1) ++ "\n" ++ formatTime p.2.start ++ " --> " ++
          formatTime (p.2.start + p.2.duration) ++ "\n" ++ p.2.text).map
        (fun s => s ++ "\n") := by
    rw [List.map_map]; rfl
  have hne : (entries.enum.map fun p =>
      toString (p.1 + 1) ++ "\n" ++ formatTime p.2.start ++ " --> " ++
        formatTime (p.2.start + p.2.duration) ++ "\n" ++ p.2.text) ≠ [] := by
    cases entries with
    | nil => exact absurd rfl h
    | cons a l => simp [List.enum_cons]
  rw [srtContent, hmap, jsJoin_blocks _ hne]

/-- Witness for C1 on the spec's out-of-order two-entry example. -/
theorem srt_export_block_structure_witness :
    ([⟨"a", 5, 1⟩, ⟨"b", 2, 1⟩] : List TranscriptEntry) ≠ [] ∧
      srtContent [⟨"a", 5, 1⟩, ⟨"b", 2, 1⟩] =
        jsJoin "\n\n"
          (([⟨"a", 5, 1⟩, ⟨"b", 2, 1⟩] : List TranscriptEntry).enum.map fun p =>
            toString (p.1 + 1) ++ "\n" ++ formatTime p.2.start ++ " --> " ++
              formatTime (p.2.start + p.2.duration) ++ "\n" ++ p.2.text) ++ "\n" :=
  ⟨by simp, srt_export_block_structure _ (by simp)⟩

/-- Claim C4: exporting an empty entry sequence yields `""` in both
PlainText modes and in SubtitleRIP mode; the export functions are total
and raise nothing. -/
theorem export_empty_sequence_yields_empty :
    txtContent true [] = "" ∧ txtContent false [] = "" ∧ srtContent [] = "" :=
  ⟨rfl, rfl, rfl⟩

/-- Counterexample to claim C3: the timestamped PlainText export
renders `[00:01:05,000] hi` for start 65, not the Display-style
`[1:05] hi` the claim states. -/
theorem txt_timestamp_not_display_style :
    txtContent true [⟨"hi", 65, 1⟩] = "[00:01:05,000] hi" ∧
      "[" ++ specDisplayStyle (65 : ℚ) ++ "] " ++ "hi" = "[1:05] hi" ∧
      txtContent true [⟨"hi", 65, 1⟩] ≠ "[" ++ specDisplayStyle (65 : ℚ) ++ "] " ++ "hi" := by
  refine ⟨?_, ?_, ?_⟩
  · norm_num [txtContent, jsJoin, formatTime, jsMod, ratTrunc]
    decide
  · norm_num [specDisplayStyle, specMod]
    decide
  · norm_num [txtContent, jsJoin, formatTime, specDisplayStyle, specMod, jsMod, ratTrunc]
    decide

/-- Claim C3 as amended: the timestamped PlainText export brackets the
Subtitle-style (`HH:MM:SS,mmm`) encoding of each entry's start, not the
Display style: each line is `"[" ++ subtitle(start) ++ "] " ++ text`,
newline-joined. -/
theorem txt_timestamp_uses_subtitle_style (entries : List TranscriptEntry)
    (h : ∀ e ∈ entries, 0 ≤ e.start) :
    txtContent true entries =
      jsJoin "\n"
        (entries.map fun e => "[" ++ specSubtitleStyle e.start ++ "] " ++ e.text) := by
  simp only [txtContent, if_pos]
  congr 1
  exact List.map_congr_left fun e he => by
    rw [formatTime_eq_specSubtitleStyle e.start (h e he)]

/-- Witness for the amended C3 on a singleton sequence. -/
theorem txt_timestamp_uses_subtitle_style_witness :
    (∀ e ∈ ([⟨"hi", 65, 1⟩] : List TranscriptEntry), 0 ≤ e.start) ∧
      txtContent true [⟨"hi", 65, 1⟩] =
        jsJoin "\n"
          (([⟨"hi", 65, 1⟩] : List TranscriptEntry).map fun e =>
            "[" ++ specSubtitleStyle e.start ++ "] " ++ e.text) := by
  have hstarts : ∀ e ∈ ([⟨"hi", 65, 1⟩] : List TranscriptEntry), 0 ≤ e.start := by
    intro e he
    simp only [List.mem_singleton] at he
    subst he
    norm_num
  exact ⟨hstarts, txt_timestamp_uses_subtitle_style _ hstarts⟩

/-- Counterexample to claim C5: a negative start is not treated as 0 —
there is no validation step, and the SRT output for start `-5` differs
from the output for start `0`. -/
theorem negative_start_not_treated_as_zero :
    srtContent [⟨"a", -5, 1⟩] ≠ srtContent [⟨"a", 0, 1⟩] := by
  norm_num [srtContent, srtBlock, jsJoin, List.enum_cons, formatTime, jsMod, ratTrunc]
  decide

/-- Claim C5 as amended: the exporter is total — it does not fail on a
negative start or a zero duration — but performs no validation: a
negative start is formatted as-is, yielding negative clock fields
(e.g. `-1:-1:-5,000`), rather than the output for start 0. -/
theorem exporter_total_on_negative_and_zero_duration :
    formatTime (-5) = "-1:-1:-5,000" ∧
      srtContent [⟨"a", -5, 1⟩] = "1\n-1:-1:-5,000 --> -1:-1:-4,000\na\n" ∧
      srtContent [⟨"a", 0, 0⟩] = "1\n00:00:00,000 --> 00:00:00,000\na\n" := by
  refine ⟨?_, ?_, ?_⟩ <;>
    (norm_num [srtContent, srtBlock, jsJoin, List.enum_cons, formatTime, jsMod, ratTrunc];
      decide)

/-- Claim C6: on a non-success backend status with a JSON body, each
proxy route (transcript, summary, quiz) answers with the backend's
status unchanged and a JSON `error` field holding the backend body's
`detail` (or the route's fixed fallback message when `detail` is
absent). -/
theorem proxy_routes_translate_backend_errors
    (p : String) (r : BackendResponse) (detail : Option String) (rest : String)
    (hp : p ≠ "") (hb : r.body = some (detail, rest)) (hok : r.ok = false) :
    transcriptRoute (some p) (some r) =
        ⟨r.status, some (jsOrElse detail "Failed to fetch transcript"), none⟩ ∧
      summaryRoute (some p) (some r) =
        ⟨r.status, some (jsOrElse detail "Failed to fetch summary"), none⟩ ∧
      quizRoute (some p) (some r) =
        ⟨r.status, some (jsOrElse detail "Failed to fetch quiz"), none⟩ := by
  refine ⟨?_, ?_, ?_⟩ <;>
    simp [transcriptRoute, summaryRoute, quizRoute, proxyRoute, hp, hb, hok]

/-- Witness for C6: a 404 whose body carries `detail`. -/
theorem proxy_routes_translate_backend_errors_witness :
    ("u" : String) ≠ "" ∧
      (⟨false, 404, some (some "no captions", "")⟩ : BackendResponse).body =
        some (some "no captions", "") ∧
      (⟨false, 404, some (some "no captions", "")⟩ : BackendResponse).ok = false ∧
      transcriptRoute (some "u") (some ⟨false, 404, some (some "no captions", "")⟩) =
        ⟨404, some (jsOrElse (some "no captions") "Failed to fetch transcript"), none⟩ :=
  ⟨by decide, rfl, rfl,
    (proxy_routes_translate_backend_errors "u" _ (some "no captions") ""
      (by decide) rfl rfl).1⟩

theorem foldl_seekToTime (sels : List ℚ) (init : Option ℚ) (lastSel : ℚ)
    (h : sels.getLast? = some lastSel) :
    sels.foldl (fun st s => seekToTime s st) init = some lastSel := by
  induction sels generalizing init with
  | nil => simp at h
  | cons x xs ih =>
    cases xs with
    | nil =>
      simp only [List.getLast?_singleton, Option.some.injEq] at h
      simp [seekToTime, h]
    | cons y t =>
      rw [List.foldl_cons]
      exact ih _ (by rwa [List.getLast?_cons_cons] at h)

/-- Claim C7: after any non-empty sequence of entry selections, an
entry is rendered active iff its start equals the start of the most
recently selected entry (exact equality against the stored
`activeTimestamp`); a later selection with a distinct start therefore
deactivates the earlier one. -/
theorem active_iff_last_selected (sels : List ℚ) (init : Option ℚ)
    (lastSel : ℚ) (e : TranscriptEntry) (h : sels.getLast? = some lastSel) :
    (isActive e (sels.foldl (fun st s => seekToTime s st) init) = true) ↔
      e.start = lastSel := by
  rw [foldl_seekToTime sels init lastSel h]
  simp [isActive, eq_comm]

/-- Witness for C7: after selecting starts 1 then 2, the entry with
start 1 is active iff `1 = 2` (i.e. it is not). -/
theorem active_iff_last_selected_witness :
    ([1, 2] : List ℚ).getLast? = some 2 ∧
      ((isActive ⟨"a", 1, 1⟩
          (([1, 2] : List ℚ).foldl (fun st s => seekToTime s st) none) = true) ↔
        (1 : ℚ) = 2) :=
  ⟨rfl, active_iff_last_selected [1, 2] none 2 ⟨"a", 1, 1⟩ rfl⟩

/-- Counterexample to claim C8: branch outcomes are not captured
independently — when one fetch rejects and the other resolves (either
direction), the single `try/catch` around `Promise.all` discards the
successful branch's data. -/
theorem rejected_branch_discards_successful_branch :
    (fetchData (.rejected "network error") (.resolved "summary")).summaryData =
        none ∧
      (fetchData (.resolved "transcript") (.rejected "network error")).transcriptData =
        none ∧
      fetchData (.rejected "network error") (.resolved "summary") =
        ⟨none, none, some "network error"⟩ :=
  ⟨rfl, rfl, rfl⟩

/-- Claim C8 as amended: both branches' parsed JSON bodies are stored
exactly when both fetches resolve (an HTTP error status still resolves,
its error-shaped body being stored for that branch); if either fetch
rejects, the shared `catch` stores only the error message and neither
body is stored. -/
theorem fetch_join_stores_both_iff_both_resolve :
    (∀ tj sj, fetchData (.resolved tj) (.resolved sj) = ⟨some tj, some sj, none⟩) ∧
      (∀ m s, fetchData (.rejected m) s = ⟨none, none, some m⟩) ∧
      (∀ tj m, fetchData (.resolved tj) (.rejected m) = ⟨none, none, some m⟩) :=
  ⟨fun _ _ => rfl, fun _ s => by cases s <;> rfl, fun _ _ => rfl⟩

/-- Claim C9: the clipboard copy joins the entry texts with a single
space, while the PlainText export without timestamps joins the same
texts with a newline; on `["hi", "there"]` these give `"hi there"` and
`"hi\nthere"`. -/
theorem clipboard_space_join_vs_txt_newline_join :
    (∀ entries : List TranscriptEntry,
        copyToClipboard entries = jsJoin " " (entries.map fun e => e.text) ∧
          txtContent false entries = jsJoin "\n" (entries.map fun e => e.text)) ∧
      copyToClipboard [⟨"hi", 0, 1⟩, ⟨"there", 1, 1⟩] = "hi there" ∧
      txtContent false [⟨"hi", 0, 1⟩, ⟨"there", 1, 1⟩] = "hi\nthere" :=
  ⟨fun _ => ⟨rfl, rfl⟩, by decide, by decide⟩

/-- Claim C10: the on-screen label's seconds field comes from
`toFixed(0)`, which rounds to the nearest integer instead of flooring,
so start `119.7` (remainder `59.7`) renders as `"1:60"`; flooring the
same remainder would give 59. -/
theorem display_label_rounds_seconds :
    displayLabel (1197 / 10) = "1:60" ∧
      (⌊jsMod (1197 / 10 : ℚ) 60⌋ : ℤ) = 59 := by
  constructor
  · norm_num [displayLabel, toFixed0, jsMod, ratTrunc]
    decide
  · norm_num [jsMod, ratTrunc]

end Voxa
